import Mathlib

/-!
Shallow embedding of the core logic of `src/app.py` (HackUTD2025-PoyoLabs):
a Flask facade over a factory-telemetry API.  JSON values are modelled by
`PyVal`; Python numbers (int/float) are modelled uniformly as rationals, so
numeric equality and arithmetic are exact.  Fallible Python code (statements
that can raise) is modelled with `Option`/`Except`.
-/

/-- Model of a Python value as produced by `response.json()`: JSON null,
booleans, numbers (int and float collapsed into `ℚ`), strings, lists and
string-keyed dicts (association lists in insertion order). -/
inductive PyVal where
  | none : PyVal
  | bool (b : Bool) : PyVal
  | num (q : ℚ) : PyVal
  | str (s : String) : PyVal
  | list (xs : List PyVal) : PyVal
  | dict (kvs : List (String × PyVal)) : PyVal

/-- Python truthiness (`bool(v)`): None and False are falsy, numbers are
truthy iff nonzero, strings/lists/dicts are truthy iff nonempty. -/
def pyTruthy : PyVal → Bool
  | .none => false
  | .bool b => b
  | .num q => decide (q ≠ 0)
  | .str s => decide (s ≠ "")
  | .list xs => !xs.isEmpty
  | .dict kvs => !kvs.isEmpty

/-- Lookup in a JSON dict, modelling `d.get(k)` / `k in d` on parsed JSON
(string keys). Returns `Option.none` when the key is absent; an explicit JSON
null stored under the key comes back as `some PyVal.none`. -/
def dictGet (kvs : List (String × PyVal)) (k : String) : Option PyVal :=
  match kvs with
  | [] => Option.none
  | (k', v) :: t => if k' = k then some v else dictGet t k

/-- Python `==` between two values used as dict keys in this program.  Only
hashable scalars ever reach a dict-key position on the paths the claims
exercise; container keys (which raise TypeError in Python when inserted) are
compared structurally-false here and are unreachable in the verified claims.
Python's numeric cross-type equality (`True == 1`) is modelled. -/
def pyKeyEq (a b : PyVal) : Bool :=
  match a, b with
  | .none, .none => true
  | .bool x, .bool y => x == y
  | .bool x, .num q => decide ((if x then (1 : ℚ) else 0) = q)
  | .num q, .bool x => decide (q = (if x then (1 : ℚ) else 0))
  | .num p, .num q => decide (p = q)
  | .str s, .str t => s == t
  | _, _ => false

/-- Lookup in the internal `live_levels_map` Python dict (arbitrary keys),
modelling `m.get(k)`. -/
def assocGet (m : List (PyVal × PyVal)) (k : PyVal) : Option PyVal :=
  match m with
  | [] => Option.none
  | (k', v) :: t => if pyKeyEq k' k then some v else assocGet t k

/-- Assignment `m[k] = v` on the internal Python dict: replace in place when
an equal key exists (keeping the originally stored key, as Python does),
otherwise append preserving insertion order. -/
def assocSet (m : List (PyVal × PyVal)) (k v : PyVal) : List (PyVal × PyVal) :=
  match m with
  | [] => [(k, v)]
  | (k', v') :: t => if pyKeyEq k' k then (k', v) :: t else (k', v') :: assocSet t k v

/-- ASCII whitespace, the characters Python `str.strip()` removes (the
unicode whitespace cases are not exercised by any claim). -/
def isPySpace (c : Char) : Bool :=
  c = ' ' || c = '\t' || c = '\n' || c = '\r' || c = '\x0b' || c = '\x0c'

/-- Python `s.strip()`: drop leading and trailing whitespace. -/
def pyStrip (s : String) : String :=
  String.mk ((((s.toList.dropWhile isPySpace).reverse.dropWhile isPySpace).reverse))

/-- Numeric value of a list of decimal digit characters (empty list = 0). -/
def digitsToNat (cs : List Char) : ℕ :=
  cs.foldl (fun acc c => 10 * acc + (c.toNat - 48)) 0

/-- Parse an unsigned decimal literal (`"12"`, `"12.5"`, `".5"`, `"7."`),
the forms accepted by Python `float()` apart from signs/whitespace.
Scientific notation and inf/nan are not modelled (no claim uses them). -/
def parseUnsignedDec (cs : List Char) : Option ℚ :=
  let intPart := cs.takeWhile (fun c => c ≠ '.')
  let rest := cs.dropWhile (fun c => c ≠ '.')
  match rest with
  | [] =>
    if intPart ≠ [] ∧ intPart.all Char.isDigit then
      some ((digitsToNat intPart : ℚ))
    else Option.none
  | _ :: frac =>
    if frac.all (fun c => c ≠ '.') ∧ intPart.all Char.isDigit ∧ frac.all Char.isDigit ∧
        (intPart ≠ [] ∨ frac ≠ []) then
      some ((digitsToNat intPart : ℚ) + (digitsToNat frac : ℚ) / (10 : ℚ) ^ frac.length)
    else Option.none

/-- Parse a signed decimal literal after stripping surrounding whitespace,
modelling the string case of Python `float(s)`. -/
def parseDec (s : String) : Option ℚ :=
  match (pyStrip s).toList with
  | '+' :: rest => parseUnsignedDec rest
  | '-' :: rest => (parseUnsignedDec rest).map Neg.neg
  | rest => parseUnsignedDec rest

/-- Python `float(v)`: numbers pass through, bools become 0/1, strings are
parsed as decimals; None, lists and dicts raise (modelled as `Option.none`). -/
def pyFloat : PyVal → Option ℚ
  | .num q => some q
  | .bool b => some (if b then 1 else 0)
  | .str s => parseDec s
  | _ => Option.none

/-- Numeric reading of a value for Python arithmetic/comparisons against a
number: ints/floats and bools work, everything else raises TypeError. -/
def pyToNum : PyVal → Option ℚ
  | .num q => some q
  | .bool b => some (if b then 1 else 0)
  | _ => Option.none

/-- Python `v >= m` for a number `m`: defined for numbers and bools, raises
(TypeError, modelled as `Option.none`) otherwise. -/
def pyGE (v : PyVal) (m : ℚ) : Option Bool :=
  (pyToNum v).map (fun q => decide (m ≤ q))

/-- Round to the nearest integer, ties to even: the rounding used by Python
`round` (modelled exactly over `ℚ`). -/
def roundHalfEven (q : ℚ) : ℤ :=
  let f := ⌊q⌋
  let r := q - (f : ℚ)
  if r < 1/2 then f
  else if 1/2 < r then f + 1
  else if f % 2 = 0 then f else f + 1

/-- Python `round(q, 1)`: round to one decimal place, ties to even. -/
def round1 (q : ℚ) : ℚ :=
  (roundHalfEven (10 * q) : ℚ) / 10

/- ----------------------------------------------------------------------
Live Level Normalizer: `get_cauldron_levels`, src/app.py lines 97-176.
---------------------------------------------------------------------- -/

/-- Wrapper keys probed in order at app.py line 100. -/
def wrapperKeys : List String := ["data", "items", "results", "value"]

/-- Keys whose presence marks a single-object live response, app.py line 106. -/
def idLikeKeys : List String :=
  ["cauldronId", "id", "cauldron_id", "currentVolume", "current_volume"]

/-- First wrapper key present in the dict whose value is a list
(app.py lines 100-103: the loop breaks at the first hit). -/
def findWrapperList (kvs : List (String × PyVal)) : Option (List PyVal) :=
  wrapperKeys.findSome? (fun w =>
    match dictGet kvs w with
    | some (.list xs) => some xs
    | _ => Option.none)

/-- Lines 97-114: resolve the payload to `live_levels_list`.  A dict is
unwrapped at the first wrapper key holding a list, else treated as a
single-object response when an id-like key is present, else rejected with
the 500 "Unexpected /api/Data format" error.  Any non-dict payload is
passed through unchanged. -/
def resolveList (payload : PyVal) : Except String PyVal :=
  match payload with
  | .dict kvs =>
    match findWrapperList kvs with
    | some xs => .ok (.list xs)
    | Option.none =>
      if idLikeKeys.any (fun k => (dictGet kvs k).isSome) then
        .ok (.list [.dict kvs])
      else
        .error "Unexpected /api/Data format"
  | other => .ok other

/-- Detect a time-series record: a dict holding a dict under
`cauldron_levels` (app.py lines 123 and 127), returning its levels map. -/
def tsLevels : PyVal → Option (List (String × PyVal))
  | .dict kvs =>
    match dictGet kvs "cauldron_levels" with
    | some (.dict m) => some m
    | _ => Option.none
  | _ => Option.none

/-- Lines 125-131: scan the list in reverse for the first valid time-series
record ("choose the latest record; pick last"), defaulting to the empty map. -/
def findLatest (xs : List PyVal) : List (String × PyVal) :=
  match xs.reverse.findSome? tsLevels with
  | some m => m
  | Option.none => []

/-- Lines 133-137: coerce a level value with `float(v)` where possible,
passing the value through unchanged when coercion raises. -/
def coerceEntry (v : PyVal) : PyVal :=
  match pyFloat v with
  | some q => .num q
  | Option.none => v

/-- Lines 133-137: populate `live_levels_map` from the chosen record's
levels map, key by key in dict order. -/
def buildTsMap (m : List (String × PyVal)) : List (PyVal × PyVal) :=
  m.foldl (fun acc kv => assocSet acc (.str kv.1) (coerceEntry kv.2)) []

/-- Lines 144-151: extract a flat-list item's cauldron key: the value of the
first present id alias; when that is None, fall back to `item["cauldron"]["id"]`
when `item["cauldron"]` is a dict. The loop at line 145 breaks on the first
key present even when its value is None. -/
def itemKey (kvs : List (String × PyVal)) : Option PyVal :=
  let k0 := (["cauldronId", "cauldron_id", "id"].findSome? (fun k => dictGet kvs k)).getD .none
  let k1 :=
    match k0 with
    | .none =>
      (match dictGet kvs "cauldron" with
       | some (.dict ckvs) => (dictGet ckvs "id").getD .none
       | _ => .none)
    | v => v
  match k1 with
  | .none => Option.none
  | v => some v

/-- Lines 156-168: extract and coerce the level of a flat-list item: value of
the first present level alias; a raising `float()` resets it to None. -/
def itemLevel (kvs : List (String × PyVal)) : PyVal :=
  let level0 := (["currentVolume", "current_volume", "volume", "level", "value",
    "current"].findSome? (fun k => dictGet kvs k)).getD .none
  match level0 with
  | .none => .none
  | v =>
    match pyFloat v with
    | some q => .num q
    | Option.none => .none

/-- Lines 139-168: fallback branch, building the map from a flat list of
per-asset records; non-dict items and items without a resolvable id are
skipped. -/
def buildFlatMap (xs : List PyVal) : List (PyVal × PyVal) :=
  xs.foldl (fun acc item =>
    match item with
    | .dict kvs =>
      (match itemKey kvs with
       | some k => assocSet acc k (itemLevel kvs)
       | Option.none => acc)
    | _ => acc) []

/-- Lines 97-176 of app.py: the full live-payload normalization producing
`live_levels_map`, or the 500 "Unexpected /api/Data format" error.  The
`.dict` branch below mirrors the `elif isinstance(live_levels_list, dict)`
code at lines 169-176, unreachable because `resolveList` never yields a
dict; it is kept for fidelity. -/
def normalizeLive (payload : PyVal) : Except String (List (PyVal × PyVal)) :=
  match resolveList payload with
  | .error e => .error e
  | .ok lst =>
    match lst with
    | .list (first :: rest) =>
      (match tsLevels first with
       | some _ => .ok (buildTsMap (findLatest (first :: rest)))
       | Option.none => .ok (buildFlatMap (first :: rest)))
    | .dict kvs =>
      (match dictGet kvs "cauldron_levels" with
       | some (.dict m) => .ok (buildTsMap m)
       | _ => .ok [])
    | _ => .ok []

example : normalizeLive (.num 5) = .ok [] := rfl

example :
    normalizeLive (.list [.dict [("cauldron_levels", .dict [("a", .num 1)])]]) =
      .ok [(.str "a", .num 1)] := rfl

example :
    normalizeLive (.list [.dict [("cauldronId", .str "a"), ("currentVolume", .num 1)]]) =
      .ok [(.str "a", .num 1)] := rfl

example : normalizeLive (.dict [("foo", .num 1)]) = .error "Unexpected /api/Data format" := rfl

/- ----------------------------------------------------------------------
Status Merger: src/app.py lines 178-195.
---------------------------------------------------------------------- -/

/-- Static catalog record for one cauldron, as loaded at startup
(app.py lines 24-53): id, display name, `max_volume`, and the synthesized
fill/drain rates. -/
structure Cauldron where
  id : String
  name : String
  max_volume : ℚ
  fill_rate_per_min : ℚ
  drain_rate_per_min : ℚ

/-- One merged record (app.py lines 180-192): the copied static record plus
`current_level` and the overflow `anomaly` flag. -/
structure Merged where
  static : Cauldron
  current_level : PyVal
  anomaly : Bool

/-- Lines 179-192 for a single catalog asset: look up the live level
(`.get` returns None when absent), default the current level to 0 when the
live value is None, and set `anomaly` via the short-circuit condition
`live_level and live_level >= max_volume`.  `Option.none` models the
TypeError Python raises when a truthy non-numeric live value is compared
with `>=`. -/
def mergeOne (c : Cauldron) (m : List (PyVal × PyVal)) : Option Merged :=
  let live : PyVal := (assocGet m (.str c.id)).getD .none
  let current : PyVal :=
    match live with
    | .none => .num 0
    | v => v
  match (if pyTruthy live then pyGE live c.max_volume else some false) with
  | some anom => some ⟨c, current, anom⟩
  | Option.none => Option.none

/-- Lines 178-192: the merge loop over the whole catalog, in catalog order;
a raising comparison aborts the request. -/
def mergeStatus (cat : List Cauldron) (m : List (PyVal × PyVal)) : Option (List Merged) :=
  cat.mapM (fun c => mergeOne c m)

/-- Response of `GET /api/cauldron/levels` (app.py lines 70-195), as a
function of the catalog and of the outcome of the upstream `/api/Data`
fetch. -/
inductive LevelsResp where
  | fetchError (msg : String) : LevelsResp
  | formatError : LevelsResp
  | raised : LevelsResp
  | ok (records : List Merged) : LevelsResp

/-- The `get_cauldron_levels` handler: a failing upstream fetch returns the
500 error body (lines 86-88); an unrecognized dict payload returns the 500
format error (line 114); a TypeError in the merge loop escapes the handler
(`raised`); otherwise the merged list is returned with status 200. -/
def get_cauldron_levels (cat : List Cauldron) (fetch : Except String PyVal) : LevelsResp :=
  match fetch with
  | .error e => .fetchError e
  | .ok payload =>
    match normalizeLive payload with
    | .error _ => .formatError
    | .ok m =>
      match mergeStatus cat m with
      | some recs => .ok recs
      | Option.none => .raised

/- ----------------------------------------------------------------------
Forecaster: `forecast_fill_times`, src/app.py lines 284-300.
---------------------------------------------------------------------- -/

/-- One forecast entry (app.py lines 294-298). -/
structure ForecastEntry where
  cauldron_id : String
  name : String
  time_to_full_min : ℚ

/-- Lines 284-298: the forecast loop over the merged records.  The
comparison `current_level < max_volume` raises for a non-numeric current
level (modelled by `Option.none`); otherwise an entry is appended exactly
when the level is strictly below capacity and the fill rate is positive. -/
def forecastGo : List Merged → List ForecastEntry → Option (List ForecastEntry)
  | [], acc => some acc
  | c :: t, acc =>
    match pyToNum c.current_level with
    | Option.none => Option.none
    | some cur =>
      if cur < c.static.max_volume then
        (if 0 < c.static.fill_rate_per_min then
          forecastGo t (acc ++ [⟨c.static.id, c.static.name,
            round1 ((c.static.max_volume - cur) / c.static.fill_rate_per_min)⟩])
        else forecastGo t acc)
      else forecastGo t acc

/-- The forecast computation of `forecast_fill_times` on a list of merged
status records. -/
def forecastLoop (xs : List Merged) : Option (List ForecastEntry) :=
  forecastGo xs []

/- ----------------------------------------------------------------------
Status endpoint per-record computation: `cauldron_status`,
src/app.py lines 328-348.
---------------------------------------------------------------------- -/

/-- Line 333: `max_vol = c.get('max_volume') or 1`. -/
def statusMaxVol (c : List (String × PyVal)) : PyVal :=
  let mv := (dictGet c "max_volume").getD .none
  if pyTruthy mv then mv else .num 1

/-- Line 334: `current = c.get('current_level') or 0`. -/
def statusCurrent (c : List (String × PyVal)) : PyVal :=
  let cu := (dictGet c "current_level").getD .none
  if pyTruthy cu then cu else .num 0

/-- Lines 335-338: `round((current / float(max_vol)) * 100, 1)` with every
raising path (uncoercible max, zero division, non-numeric current) caught
and replaced by 0.0. -/
def percent_full (c : List (String × PyVal)) : ℚ :=
  match pyFloat (statusMaxVol c) with
  | Option.none => 0
  | some m =>
    if m = 0 then 0
    else
      match pyToNum (statusCurrent c) with
      | Option.none => 0
      | some cu => round1 (cu / m * 100)

/-- One insertion of the dict comprehension at line 329: overwrite the value
when an equal key already exists (keys of the comprehension are the string
cauldron ids), otherwise append. -/
def forecastMapStep (m : List (PyVal × ForecastEntry)) (f : ForecastEntry) :
    List (PyVal × ForecastEntry) :=
  match m.find? (fun e => pyKeyEq e.1 (.str f.cauldron_id)) with
  | some _ => m.map (fun e => if pyKeyEq e.1 (.str f.cauldron_id) then (e.1, f) else e)
  | Option.none => m ++ [(.str f.cauldron_id, f)]

/-- Line 329: `forecast_map = {f.get('cauldron_id'): f for f in forecasts}`,
keys being the (string) cauldron ids. -/
def forecastMapOf (fs : List ForecastEntry) : List (PyVal × ForecastEntry) :=
  fs.foldl forecastMapStep []

/-- Lines 340-341: look up this record's forecast by its id and take its
`time_to_full_min`, else None.  Every forecast entry is a nonempty dict,
hence truthy. -/
def status_time_to_full (c : List (String × PyVal)) (fs : List ForecastEntry) : Option ℚ :=
  let key := (dictGet c "id").getD .none
  match (forecastMapOf fs).find? (fun e => pyKeyEq e.1 key) with
  | some e => some e.2.time_to_full_min
  | Option.none => Option.none

/-- Lines 333-346 for one record: the `percent_full` and `time_to_full_min`
fields added by the status endpoint. -/
def cauldron_status_record (c : List (String × PyVal)) (fs : List ForecastEntry) :
    ℚ × Option ℚ :=
  (percent_full c, status_time_to_full c fs)

/- ----------------------------------------------------------------------
Dispatch: `dispatch_courier`, src/app.py lines 350-369.
---------------------------------------------------------------------- -/

/-- Python `c['id'] == cauldron_id` where `c['id']` is a string: `==` with a
value of any other type is simply False (never raises). -/
def pyStrEq (s : String) (v : PyVal) : Bool :=
  match v with
  | .str t => s == t
  | _ => false

/-- Response of `POST /api/logistics/dispatch_courier`. -/
inductive DispatchResp where
  | clientError (msg : String) : DispatchResp
  | success (msg : String) : DispatchResp

/-- Lines 356-369: find the requested cauldron in the static catalog; when
absent answer 400 `{"status": "error", "message": "Invalid cauldron ID."}`,
otherwise 200 `{"status": "success", ...}`.  The catalog is returned
unchanged to make explicit that the handler mutates no state (it only reads
`factory_static_data`). -/
def dispatch_courier (cat : List Cauldron) (cauldron_id : PyVal) :
    DispatchResp × List Cauldron :=
  match cat.find? (fun c => pyStrEq c.id cauldron_id) with
  | Option.none => (.clientError "Invalid cauldron ID.", cat)
  | some c => (.success ("Courier witch dispatched to " ++ c.name ++ ". (Simulation)"), cat)

/- ----------------------------------------------------------------------
Intent Dispatcher routing: `handle_agent_chat`, src/app.py lines 388-461.
---------------------------------------------------------------------- -/

/-- Python substring containment `needle in hay` on character lists. -/
def listContains (hay needle : List Char) : Bool :=
  needle.isPrefixOf hay ||
    match hay with
    | [] => false
    | _ :: t => listContains t needle

/-- Python `needle in hay` for strings. -/
def strContains (hay needle : String) : Bool :=
  listContains hay.toList needle.toList

/-- Python `s.lower()` (ASCII; all routing keywords are ASCII). -/
def pyLower (s : String) : String :=
  String.mk (s.toList.map Char.toLower)

/-- The intent ultimately dispatched by the chat controller. -/
inductive Intent where
  | discrepancy : Intent
  | forecast : Intent
  | dispatch : Intent
  | optimize : Intent
  | help : Intent
deriving DecidableEq

/-- Lines 388-461: the chat controller's branching on
`user_message.lower()`, in source order. -/
def route (msg : String) : Intent :=
  let m := pyLower msg
  if strContains m "suspicious" || strContains m "anomaly" || strContains m "ticket" then
    .discrepancy
  else if strContains m "forecast" || strContains m "full" then
    .forecast
  else if strContains m "dispatch" || strContains m "empty" then
    .dispatch
  else if strContains m "optimize" || strContains m "routes" || strContains m "witches" then
    .optimize
  else
    .help

/-- The spec's description of the router (section 4.6/8): first-match keyword
containment over the four intent categories in fixed priority order, with a
help fallback.  Stated separately from `route` so the two can be compared. -/
def intentTable : List (Intent × List String) :=
  [(.discrepancy, ["suspicious", "anomaly", "ticket"]),
   (.forecast, ["forecast", "full"]),
   (.dispatch, ["dispatch", "empty"]),
   (.optimize, ["optimize", "routes", "witches"])]

/-- First-match routing over a keyword table, per the spec's words. -/
def firstMatch (m : String) : List (Intent × List String) → Intent
  | [] => .help
  | (i, kws) :: t => if kws.any (fun k => strContains m k) then i else firstMatch m t

/-- The spec-side router: lowercase, then first matching category. -/
def specRoute (msg : String) : Intent :=
  firstMatch (pyLower msg) intentTable

/- ----------------------------------------------------------------------
External completion fallback: `handle_agent_chat`, src/app.py lines 463-538.
---------------------------------------------------------------------- -/

/-- One streamed delta (app.py lines 504-521): the optional
`reasoning_content`, `content` and `text` attributes. -/
structure Delta where
  reasoning_content : Option String
  content : Option String
  text : Option String

/-- Lines 514-516: the content of a delta, falling back to `text` when
`content` is None. -/
def deltaContent (d : Delta) : Option String :=
  match d.content with
  | some c => some c
  | Option.none => d.text

/-- Lines 501-521: collect the truthy (nonempty) content fragments of the
stream in arrival order.  A chunk whose delta extraction raised is `none`
and is skipped (lines 505-511). -/
def assembleContent (chunks : List (Option Delta)) : List String :=
  chunks.foldl (fun acc oc =>
    match oc with
    | some d =>
      (match deltaContent d with
       | some c => if c = "" then acc else acc ++ [c]
       | Option.none => acc)
    | Option.none => acc) []

/-- Lines 513-519: collect the truthy reasoning fragments of the stream. -/
def assembleReasoning (chunks : List (Option Delta)) : List String :=
  chunks.foldl (fun acc oc =>
    match oc with
    | some d =>
      (match d.reasoning_content with
       | some r => if r = "" then acc else acc ++ [r]
       | Option.none => acc)
    | Option.none => acc) []

/-- Outcome of the Nemotron call: either the whole try-block raised with
some message, or the stream yielded a list of chunks. -/
def NemotronOutcome : Type := Except String (List (Option Delta))

/-- Lines 469-533: post-process the locally composed response through the
streamed Nemotron completion.  A raised call appends a note to the plan and
keeps the local response; an empty assembled-and-stripped text keeps the
local response with a warning; a nonempty text replaces the response, with
the reasoning trace appended to the plan only under the debug flag. -/
def applyNemotron (localResp : String) (plan : List String) (showReasoning : Bool)
    (outcome : Except String (List (Option Delta))) : String × List String :=
  match outcome with
  | .error e => (localResp, plan ++ ["Nemotron call failed: " ++ e])
  | .ok chunks =>
    let assembled := assembleContent chunks
    let reasoningParts := assembleReasoning chunks
    let finalText := pyStrip (String.join assembled)
    if finalText = "" then
      (localResp, plan ++ ["Warning: Nemotron streamed no text; keeping local response."])
    else
      (finalText,
        plan ++ ["Tool Result: Response generated by Nemotron (stream)."] ++
          (if reasoningParts ≠ [] ∧ showReasoning then
            ["Nemotron reasoning: " ++ String.intercalate " " reasoningParts]
          else []))

/- ----------------------------------------------------------------------
Discrepancy Reconciler: `check_discrepancies`, src/app.py lines 198-262.
---------------------------------------------------------------------- -/

/-- An HTTP response: status code plus JSON body. -/
structure HttpResp where
  code : ℕ
  body : PyVal

/-- Python `str(v)` as used in the f-string at line 246 for the ticket id.
Scalar renderings are exact; the numeric and container renderings are
canonical stand-ins (Python distinguishes int/float text and prints full
containers; no claim depends on this text). -/
def pyStr : PyVal → String
  | PyVal.none => "None"
  | .bool true => "True"
  | .bool false => "False"
  | .num q => toString q.num ++ (if q.den = 1 then "" else "/" ++ toString q.den)
  | .str s => s
  | .list _ => "[...]"
  | .dict _ => "\x7b...\x7d"

/-- Python `format(q, ".1f")`: fixed-point with one decimal digit (ties to
even over `ℚ`; the sign of a negative zero is not preserved). -/
def fmt1 (q : ℚ) : String :=
  let n := roundHalfEven (10 * q)
  let m := n.natAbs
  (if n < 0 then "-" else "") ++ toString (m / 10) ++ "." ++ toString (m % 10)

/-- An alert record (app.py lines 244-253). -/
structure Alert where
  cauldron_id : PyVal
  message : String

/-- Lines 232-253: the simulated alert construction from the fetched
tickets.  `Option.none` models any exception inside the try-block after the
fetch (non-subscriptable tickets value, a first ticket without `.get`, a
non-numeric ticket amount under `- 50` or `:.1f`); the unused
`cauldron_data` catalog lookup at line 239 cannot raise and is omitted. -/
def simulatedAlerts (real_tickets : PyVal) : Option (List Alert) :=
  if pyTruthy real_tickets then
    match real_tickets with
    | .list (first :: _) =>
      (match first with
       | .dict fkvs =>
         let cid := (dictGet fkvs "cauldronId").getD (.str "cauldron_001")
         let amount := (dictGet fkvs "amount").getD (.num 100)
         (match pyToNum amount with
          | some amt =>
            some [⟨cid, "Suspicious Ticket " ++ pyStr ((dictGet fkvs "id").getD .none) ++
                    ". Calculated: " ++ fmt1 (amt - 50) ++ "L, Ticket: " ++ fmt1 amt ++ "L."⟩,
                  ⟨.str "cauldron_003",
                    "Unlogged drain detected at 3:15 PM. No matching ticket found."⟩]
          | Option.none => Option.none)
       | _ => Option.none)
    | _ => Option.none
  else
    some []

/-- Body returned when the try-block raises (app.py line 257): an
alert-list-shaped 200 reply, not a 500. -/
def discrepancyErrorBody : PyVal :=
  .list [.dict [("message", .str "Error connecting to EOG API to check tickets.")]]

/-- Lines 198-262: the `check_discrepancies` handler as a function of the
outcome of the `/api/Tickets` fetch.  Every path returns status 200: a
failed fetch (or any later exception) is caught and answered with the fixed
error-message alert list; no alerts yields the "All tickets reconciled."
list; otherwise the alerts are returned. -/
def check_discrepancies (fetched : Except String PyVal) : HttpResp :=
  match fetched with
  | .error _ => ⟨200, discrepancyErrorBody⟩
  | .ok tickets =>
    match simulatedAlerts tickets with
    | Option.none => ⟨200, discrepancyErrorBody⟩
    | some [] => ⟨200, .list [.dict [("message", .str "All tickets reconciled.")]]⟩
    | some alerts =>
      ⟨200, .list (alerts.map (fun a =>
        .dict [("cauldron_id", a.cauldron_id), ("message", .str a.message)]))⟩

/- ----------------------------------------------------------------------
Helper lemmas about the association-list operations.
---------------------------------------------------------------------- -/

/-- A successful lookup returns one of the stored values. -/
theorem assocGet_mem {m : List (PyVal × PyVal)} {k v : PyVal}
    (h : assocGet m k = some v) : ∃ kv ∈ m, kv.2 = v := by
  induction m with
  | nil => simp [assocGet] at h
  | cons hd t ih =>
    rw [assocGet] at h
    by_cases hk : pyKeyEq hd.1 k
    · simp [hk] at h
      exact ⟨hd, List.mem_cons_self .., h⟩
    · simp [hk] at h
      obtain ⟨kv, hkv, hv⟩ := ih h
      exact ⟨kv, List.mem_cons_of_mem _ hkv, hv⟩

/-- Key equality against a string key forces the other side to be that
string. -/
theorem pyKeyEq_str {v : PyVal} {s : String} (h : pyKeyEq v (.str s) = true) :
    v = .str s := by
  cases v <;> simp [pyKeyEq] at h
  exact congrArg PyVal.str h

/-- Inserting a fresh key appends it. -/
theorem assocSet_fresh {m : List (PyVal × PyVal)} {k : PyVal} (v : PyVal)
    (h : ∀ e ∈ m, pyKeyEq e.1 k = false) : assocSet m k v = m ++ [(k, v)] := by
  induction m with
  | nil => rfl
  | cons hd t ih =>
    rw [assocSet]
    rw [h hd (List.mem_cons_self ..)]
    simp only [cond_false, List.cons_append, List.cons.injEq, true_and, if_neg Bool.false_ne_true]
    exact ih (fun e he => h e (List.mem_cons_of_mem _ he))

/-- Populating a fresh Python dict from distinct string keys produces the
entries in order, each value coerced. -/
theorem buildTsMap_go (m : List (String × PyVal)) :
    ∀ acc : List (PyVal × PyVal),
    (∀ kv ∈ m, ∀ e ∈ acc, pyKeyEq e.1 (.str kv.1) = false) →
    (m.map Prod.fst).Nodup →
    m.foldl (fun acc kv => assocSet acc (.str kv.1) (coerceEntry kv.2)) acc =
      acc ++ m.map (fun kv => (.str kv.1, coerceEntry kv.2)) := by
  induction m with
  | nil => intro acc _ _; simp
  | cons hd t ih =>
    intro acc hfresh hnd
    rw [List.foldl_cons]
    rw [assocSet_fresh _ (hfresh hd (List.mem_cons_self ..))]
    rw [List.map_cons, List.nodup_cons] at hnd
    have hfresh2 : ∀ kv ∈ t, ∀ e ∈ acc ++ [(PyVal.str hd.1, coerceEntry hd.2)],
        pyKeyEq e.1 (.str kv.1) = false := by
      intro kv hkv e he
      rcases List.mem_append.1 he with h1 | h2
      · exact hfresh kv (List.mem_cons_of_mem _ hkv) e h1
      · rw [List.mem_singleton.1 h2]
        have hne : hd.1 ≠ kv.1 := fun heq => hnd.1 (heq ▸ List.mem_map_of_mem Prod.fst hkv)
        simpa [pyKeyEq] using hne
    rw [ih (acc ++ [(PyVal.str hd.1, coerceEntry hd.2)]) hfresh2 hnd.2]
    simp

/-- `buildTsMap` on a map with distinct keys is the entrywise coercion. -/
theorem buildTsMap_eq {m : List (String × PyVal)} (hnd : (m.map Prod.fst).Nodup) :
    buildTsMap m = m.map (fun kv => (.str kv.1, coerceEntry kv.2)) := by
  simpa [buildTsMap] using buildTsMap_go m [] (by simp) hnd

/- ----------------------------------------------------------------------
Claim C2.
---------------------------------------------------------------------- -/

/-- Claim C2: for every asset id and numeric level, the normalizer produces
the same asset-to-level map from each of the four equivalent payload
encodings: a one-record time-series list carrying a levels map, a flat list
of per-asset records with aliased id/level field names, a dict wrapping such
a list under a known wrapper key, and a single asset dict. -/
theorem C2_shape_equivalence (a : String) (q : ℚ) :
    normalizeLive (.list [.dict [("cauldron_levels", .dict [(a, .num q)])]]) =
      .ok [(.str a, .num q)] ∧
    normalizeLive (.list [.dict [("cauldronId", .str a), ("currentVolume", .num q)]]) =
      .ok [(.str a, .num q)] ∧
    normalizeLive (.dict [("data",
        .list [.dict [("cauldronId", .str a), ("currentVolume", .num q)]])]) =
      .ok [(.str a, .num q)] ∧
    normalizeLive (.dict [("cauldronId", .str a), ("currentVolume", .num q)]) =
      .ok [(.str a, .num q)] :=
  ⟨rfl, rfl, rfl, rfl⟩

/- ----------------------------------------------------------------------
Claim C1.
---------------------------------------------------------------------- -/

/-- Claim C1 counterexample: a bare-number payload matches none of the four
recognized shapes, yet the live-levels operation does not report a format
or service error: it succeeds (HTTP 200) with every catalog asset at level
0, exactly the all-zero success the claim rules out. -/
theorem C1_counterexample :
    get_cauldron_levels [⟨"cauldron_001", "Alpha", 100, 1, 10⟩] (.ok (.num 5)) =
      .ok [⟨⟨"cauldron_001", "Alpha", 100, 1, 10⟩, .num 0, false⟩] := rfl

/-- Claim C1 amended: only an unrecognized dict payload (no known wrapper
key holding a list and no known id/volume field) is reported as the
explicit format error; an unrecognized non-dict payload such as a bare
number is not rejected: the live-levels operation succeeds with an empty
level map, i.e. every catalog asset is reported at level 0 with the
overflow flag false. -/
theorem C1_amended :
    (∀ kvs : List (String × PyVal),
      findWrapperList kvs = Option.none →
      idLikeKeys.any (fun k => (dictGet kvs k).isSome) = false →
      normalizeLive (.dict kvs) = .error "Unexpected /api/Data format") ∧
    (∀ (q : ℚ) (cat : List Cauldron),
      get_cauldron_levels cat (.ok (.num q)) =
        .ok (cat.map (fun c => ⟨c, .num 0, false⟩))) := by
  constructor
  · intro kvs h1 h2
    simp [normalizeLive, resolveList, h1, h2]
  · intro q cat
    have hnorm : normalizeLive (.num q) = .ok [] := rfl
    simp only [get_cauldron_levels, hnorm]
    have : mergeStatus cat [] = some (cat.map (fun c => ⟨c, .num 0, false⟩)) := by
      induction cat with
      | nil => rfl
      | cons c t ih =>
        simp only [mergeStatus] at ih ⊢
        rw [List.mapM_cons, ih]
        rfl
    rw [this]

/-- Claim C1 amended, witness: the dict-payload part at a concrete
unrecognized dict, evaluated. -/
theorem C1_amended_witness :
    normalizeLive (.dict [("foo", .num 1)]) = .error "Unexpected /api/Data format" :=
  C1_amended.1 [("foo", .num 1)] rfl rfl

/- ----------------------------------------------------------------------
Claim C3.
---------------------------------------------------------------------- -/

/-- Merge of a single asset under the spec's data model: numeric live
values, positive capacity. -/
theorem mergeOne_eq {m : List (PyVal × PyVal)} (c : Cauldron)
    (hv : ∀ kv ∈ m, ∃ q : ℚ, kv.2 = PyVal.num q) (hc : 0 < c.max_volume) :
    mergeOne c m = some
      (match assocGet m (.str c.id) with
       | some (.num q) => ⟨c, .num q, decide (c.max_volume ≤ q)⟩
       | _ => ⟨c, .num 0, false⟩) := by
  rcases hget : assocGet m (.str c.id) with _ | v
  · simp [mergeOne, hget, pyTruthy]
  · obtain ⟨kv, hkv, hval⟩ := assocGet_mem hget
    obtain ⟨q, hq⟩ := hv kv hkv
    rw [hval] at hq
    subst hq
    by_cases hz : q = 0
    · subst hz
      have hle : decide (c.max_volume ≤ (0 : ℚ)) = false := decide_eq_false (not_le.mpr hc)
      simp [mergeOne, hget, pyTruthy, hle]
    · simp [mergeOne, hget, pyTruthy, hz, pyGE, pyToNum]

/-- Claim C3: for every catalog (positive capacities) and every live level
map (numeric values, per the spec's Live Level Snapshot data model), the
Status Merger never raises and produces exactly one merged record per
catalog asset in catalog order; an asset absent from the live map gets
current level 0 and overflow false; overflow is true iff a live level is
present and is at least the asset's maximum capacity. -/
theorem C3_merger (cat : List Cauldron) (m : List (PyVal × PyVal))
    (hv : ∀ kv ∈ m, ∃ q : ℚ, kv.2 = PyVal.num q)
    (hc : ∀ c ∈ cat, 0 < c.max_volume) :
    mergeStatus cat m = some (cat.map (fun c =>
      match assocGet m (.str c.id) with
      | some (.num q) => ⟨c, .num q, decide (c.max_volume ≤ q)⟩
      | _ => ⟨c, .num 0, false⟩)) := by
  induction cat with
  | nil => rfl
  | cons c t ih =>
    simp only [mergeStatus] at ih ⊢
    rw [List.mapM_cons, mergeOne_eq c hv (hc c (List.mem_cons_self ..)),
      ih (fun c' hc' => hc c' (List.mem_cons_of_mem _ hc'))]
    rfl

/-- Claim C3 witness: a two-asset catalog, one asset overflowing and one
absent from the live map, evaluated. -/
theorem C3_merger_witness :
    mergeStatus [⟨"c1", "Alpha", 100, 1, 10⟩, ⟨"c2", "Beta", 200, 1, 10⟩]
        [(.str "c1", .num 150)] =
      some [⟨⟨"c1", "Alpha", 100, 1, 10⟩, .num 150, true⟩,
            ⟨⟨"c2", "Beta", 200, 1, 10⟩, .num 0, false⟩] :=
  (C3_merger _ _
    (by intro kv hkv; rw [List.mem_singleton.1 hkv]; exact ⟨150, rfl⟩)
    (by intro c hmem; rcases List.mem_cons.1 hmem with h | h
        · rw [h]; norm_num
        · rw [List.mem_singleton.1 h]; norm_num)).trans rfl

/- ----------------------------------------------------------------------
Claim C4.
---------------------------------------------------------------------- -/

/-- The forecast entry the spec prescribes for a merged record with numeric
current level: present exactly when the level is strictly below capacity
and the fill rate is positive. -/
def forecastSpec (c : Merged) : Option ForecastEntry :=
  match c.current_level with
  | .num q =>
    if q < c.static.max_volume ∧ 0 < c.static.fill_rate_per_min then
      some ⟨c.static.id, c.static.name,
        round1 ((c.static.max_volume - q) / c.static.fill_rate_per_min)⟩
    else Option.none
  | _ => Option.none

/-- The forecast loop, with the accumulator generalized. -/
theorem forecastGo_eq (xs : List Merged) :
    ∀ acc : List ForecastEntry,
    (∀ c ∈ xs, ∃ q : ℚ, c.current_level = PyVal.num q) →
    forecastGo xs acc = some (acc ++ xs.filterMap forecastSpec) := by
  induction xs with
  | nil => intro acc _; simp [forecastGo]
  | cons c t ih =>
    intro acc hv
    obtain ⟨q, hq⟩ := hv c (List.mem_cons_self ..)
    have ht : ∀ c' ∈ t, ∃ q : ℚ, c'.current_level = PyVal.num q :=
      fun c' h => hv c' (List.mem_cons_of_mem _ h)
    rw [forecastGo, hq]
    simp only [pyToNum]
    by_cases hlt : q < c.static.max_volume
    · by_cases hfr : 0 < c.static.fill_rate_per_min
      · rw [if_pos hlt, if_pos hfr, ih _ ht]
        simp [forecastSpec, hq, hlt, hfr]
      · rw [if_pos hlt, if_neg hfr, ih _ ht]
        simp [forecastSpec, hq, hfr]
    · rw [if_neg hlt, ih _ ht]
      simp [forecastSpec, hq, hlt]

/-- Claim C4: for every list of merged status records (numeric current
levels), the Forecaster emits exactly the assets strictly below capacity
with positive fill rate, each with minutes-to-full rounded to one decimal,
omitting the others entirely; in particular capacity 100, level 50, rate 2
gives 25.0 and a full asset at capacity 100 with rate 1 is omitted. -/
theorem C4_forecaster :
    (∀ xs : List Merged,
      (∀ c ∈ xs, ∃ q : ℚ, c.current_level = PyVal.num q) →
      forecastLoop xs = some (xs.filterMap forecastSpec)) ∧
    forecastLoop [⟨⟨"c1", "Alpha", 100, 2, 10⟩, .num 50, false⟩] =
      some [⟨"c1", "Alpha", 25⟩] ∧
    forecastLoop [⟨⟨"c2", "Beta", 100, 1, 10⟩, .num 100, true⟩] = some [] := by
  refine ⟨fun xs hv => ?_, ?_, ?_⟩
  · simpa [forecastLoop] using forecastGo_eq xs [] hv
  · norm_num [forecastLoop, forecastGo, pyToNum, round1, roundHalfEven]
  · norm_num [forecastLoop, forecastGo, pyToNum]

/-- Claim C4 witness: the universal part applied to a concrete two-record
list, one forecastable and one at capacity, evaluated. -/
theorem C4_forecaster_witness :
    forecastLoop [⟨⟨"c1", "Alpha", 100, 2, 10⟩, .num 50, false⟩,
                  ⟨⟨"c2", "Beta", 100, 1, 10⟩, .num 100, true⟩] =
      some [⟨"c1", "Alpha", 25⟩] :=
  (C4_forecaster.1 _ (by
    intro c hmem
    rcases List.mem_cons.1 hmem with h | h
    · rw [h]; exact ⟨50, rfl⟩
    · rw [List.mem_singleton.1 h]; exact ⟨100, rfl⟩)).trans
    (by norm_num [List.filterMap_cons, forecastSpec, round1, roundHalfEven])

/- ----------------------------------------------------------------------
Claim C5.
---------------------------------------------------------------------- -/

/-- Claim C5 counterexample: a message containing both "forecast" and
"dispatch" does not always take the forecast path: the discrepancy
keywords are tested first, so a message also containing "ticket" routes to
the discrepancy path. -/
theorem C5_counterexample :
    strContains (pyLower "ticket: forecast then dispatch") "forecast" = true ∧
    strContains (pyLower "ticket: forecast then dispatch") "dispatch" = true ∧
    route "ticket: forecast then dispatch" = .discrepancy ∧
    Intent.discrepancy ≠ Intent.forecast := by
  refine ⟨rfl, rfl, rfl, by decide⟩

/-- Claim C5 amended: the dispatcher routes by first-match keyword
containment in the fixed priority order discrepancy, forecast, dispatch,
optimize with a help fallback (refinement of the source router against the
spec-side table router); and a message containing both "forecast" and
"dispatch" takes the forecast path provided it contains none of the
discrepancy keywords "suspicious", "anomaly", "ticket". -/
theorem C5_amended :
    (∀ msg, route msg = specRoute msg) ∧
    (∀ msg, strContains (pyLower msg) "forecast" = true →
      strContains (pyLower msg) "dispatch" = true →
      strContains (pyLower msg) "suspicious" = false →
      strContains (pyLower msg) "anomaly" = false →
      strContains (pyLower msg) "ticket" = false →
      route msg = .forecast) := by
  constructor
  · intro msg
    simp only [route, specRoute, firstMatch, intentTable, List.any_cons, List.any_nil,
      Bool.or_false, Bool.or_assoc]
  · intro msg h1 _ h3 h4 h5
    simp [route, h1, h3, h4, h5]

/-- Claim C5 amended, witness: a concrete message containing "forecast" and
"dispatch" and no discrepancy keyword routes to the forecast path. -/
theorem C5_amended_witness :
    route "please forecast and dispatch" = .forecast :=
  C5_amended.2 "please forecast and dispatch" rfl rfl rfl rfl rfl

/- ----------------------------------------------------------------------
Claim C6.
---------------------------------------------------------------------- -/

/-- Claim C6: a dispatch request whose asset id matches no catalog entry
gets the 400-equivalent error response with status "error" and leaves the
catalog (the only process state the handler touches) unchanged; a request
whose asset id matches some catalog entry gets a status "success" response,
also without mutating state. -/
theorem C6_dispatch :
    (∀ (cat : List Cauldron) (cauldron_id : PyVal),
      (∀ c ∈ cat, pyStrEq c.id cauldron_id = false) →
      dispatch_courier cat cauldron_id = (.clientError "Invalid cauldron ID.", cat)) ∧
    (∀ (cat : List Cauldron) (cauldron_id : PyVal) (c : Cauldron),
      c ∈ cat → pyStrEq c.id cauldron_id = true →
      (∃ c' ∈ cat, pyStrEq c'.id cauldron_id = true ∧
        (dispatch_courier cat cauldron_id).1 =
          .success ("Courier witch dispatched to " ++ c'.name ++ ". (Simulation)")) ∧
      (dispatch_courier cat cauldron_id).2 = cat) := by
  constructor
  · intro cat cid h
    have hnone : cat.find? (fun c => pyStrEq c.id cid) = Option.none :=
      List.find?_eq_none.2 (fun c hc => by simp [h c hc])
    simp [dispatch_courier, hnone]
  · intro cat cid c hmem hc
    have hsome : (cat.find? (fun c => pyStrEq c.id cid)).isSome :=
      List.find?_isSome.2 ⟨c, hmem, hc⟩
    rcases hfind : cat.find? (fun c => pyStrEq c.id cid) with _ | c'
    · rw [hfind] at hsome; simp at hsome
    · have hp := List.find?_some hfind
      refine ⟨⟨c', List.mem_of_find?_eq_some hfind, hp, ?_⟩, ?_⟩
      · simp [dispatch_courier, hfind]
      · simp [dispatch_courier, hfind]

/-- Claim C6 witness: both parts at a concrete one-asset catalog, with an
unknown and a known id, evaluated. -/
theorem C6_dispatch_witness :
    dispatch_courier [⟨"cauldron_001", "Alpha", 100, 1, 10⟩] (.str "cauldron_999") =
      (.clientError "Invalid cauldron ID.", [⟨"cauldron_001", "Alpha", 100, 1, 10⟩]) ∧
    (dispatch_courier [⟨"cauldron_001", "Alpha", 100, 1, 10⟩] (.str "cauldron_001")).1 =
      .success "Courier witch dispatched to Alpha. (Simulation)" := by
  constructor
  · exact C6_dispatch.1 _ _ (by
      intro c hc
      rw [List.mem_singleton.1 hc]
      rfl)
  · obtain ⟨⟨c', hmem, hc', hresp⟩, _⟩ :=
      C6_dispatch.2 [⟨"cauldron_001", "Alpha", 100, 1, 10⟩] (.str "cauldron_001")
        ⟨"cauldron_001", "Alpha", 100, 1, 10⟩ (List.mem_singleton.2 rfl) rfl
    rw [List.mem_singleton.1 hmem] at hresp
    exact hresp

/- ----------------------------------------------------------------------
Claim C7.
---------------------------------------------------------------------- -/

/-- Claim C7: when the chat turn calls the external completion service, a
failed call is recorded in the plan log and the locally composed response
is returned unchanged; a stream whose assembled text strips to empty also
keeps the local response (with a warning in the plan); only a nonempty
streamed text replaces the response.  The turn never fails hard:
`applyNemotron` is total. -/
theorem C7_nemotron (localResp : String) (plan : List String) (showReasoning : Bool)
    (outcome : Except String (List (Option Delta))) :
    (∀ e, outcome = .error e →
      applyNemotron localResp plan showReasoning outcome =
        (localResp, plan ++ ["Nemotron call failed: " ++ e])) ∧
    (∀ chunks, outcome = .ok chunks →
      pyStrip (String.join (assembleContent chunks)) = "" →
      applyNemotron localResp plan showReasoning outcome =
        (localResp, plan ++ ["Warning: Nemotron streamed no text; keeping local response."])) ∧
    (∀ chunks, outcome = .ok chunks →
      pyStrip (String.join (assembleContent chunks)) ≠ "" →
      (applyNemotron localResp plan showReasoning outcome).1 =
        pyStrip (String.join (assembleContent chunks))) := by
  refine ⟨fun e he => ?_, fun chunks hc hempty => ?_, fun chunks hc hne => ?_⟩
  · rw [he]; rfl
  · rw [hc]; simp [applyNemotron, hempty]
  · rw [hc]; simp [applyNemotron, hne]

/-- Claim C7 witness: all three behaviors at concrete outcomes (a raised
call, an all-whitespace stream, and a stream with text), evaluated. -/
theorem C7_nemotron_witness :
    applyNemotron "local reply" ["Plan: step"] false (.error "timeout") =
      ("local reply", ["Plan: step", "Nemotron call failed: timeout"]) ∧
    applyNemotron "local reply" [] false
        (.ok [some ⟨Option.none, some " ", Option.none⟩]) =
      ("local reply", ["Warning: Nemotron streamed no text; keeping local response."]) ∧
    (applyNemotron "local reply" [] false
        (.ok [some ⟨Option.none, some "hi ", Option.none⟩, Option.none,
              some ⟨Option.none, Option.none, some "there"⟩])).1 = "hi there" := by
  refine ⟨(C7_nemotron "local reply" ["Plan: step"] false (.error "timeout")).1 "timeout" rfl,
    ((C7_nemotron "local reply" [] false _).2.1 _ rfl (by rfl)).trans (by rfl),
    (((C7_nemotron "local reply" [] false _).2.2) _ rfl (by decide)).trans (by rfl)⟩

/- ----------------------------------------------------------------------
Claim C8.
---------------------------------------------------------------------- -/

/-- Claim C8: for every nonempty time-series-shaped payload in which every
element is a valid time-series record, the normalizer returns the levels
map of the last list element (the implementation's notion of
"chronologically last"), each value coerced to a number and each
uncoercible value passed through unchanged.  Distinct keys reflect that the
levels map models a Python dict. -/
theorem C8_timeseries (xs : List PyVal) (last : PyVal) (m : List (String × PyVal))
    (hall : ∀ r ∈ xs, (tsLevels r).isSome = true)
    (hlast : xs.getLast? = some last)
    (hm : tsLevels last = some m)
    (hnd : (m.map Prod.fst).Nodup) :
    normalizeLive (.list xs) = .ok (m.map (fun kv => (.str kv.1, coerceEntry kv.2))) := by
  cases xs with
  | nil => simp at hlast
  | cons first rest =>
    have hfirst := hall first (List.mem_cons_self ..)
    rcases hfst : tsLevels first with _ | m₀
    · rw [hfst] at hfirst; simp at hfirst
    · have hrev : (first :: rest).reverse.head? = some last := by
        rw [List.head?_reverse]; exact hlast
      have hlatest : findLatest (first :: rest) = m := by
        rcases hr : (first :: rest).reverse with _ | ⟨a, t⟩
        · rw [hr] at hrev; simp at hrev
        · rw [hr] at hrev
          simp only [List.head?_cons, Option.some.injEq] at hrev
          subst hrev
          rw [findLatest, hr, List.findSome?_cons, hm]
      show (match tsLevels first with
        | some _ => Except.ok (buildTsMap (findLatest (first :: rest)))
        | Option.none => Except.ok (buildFlatMap (first :: rest))) =
        Except.ok (m.map (fun kv => (.str kv.1, coerceEntry kv.2)))
      rw [hfst, hlatest, buildTsMap_eq hnd]

/-- Claim C8 witness: a two-record time series whose last record carries a
coercible string level and an uncoercible dict level, evaluated: the later
record wins, "7" is coerced to the number 7, and the dict passes through. -/
theorem C8_timeseries_witness :
    normalizeLive (.list
      [.dict [("timestamp", .num 1), ("cauldron_levels", .dict [("a", .num 5)])],
       .dict [("timestamp", .num 2),
              ("cauldron_levels", .dict [("a", .str "7"), ("b", .dict [])])]]) =
      .ok [(.str "a", .num 7), (.str "b", .dict [])] :=
  (C8_timeseries
    [.dict [("timestamp", .num 1), ("cauldron_levels", .dict [("a", .num 5)])],
     .dict [("timestamp", .num 2),
            ("cauldron_levels", .dict [("a", .str "7"), ("b", .dict [])])]]
    (.dict [("timestamp", .num 2),
            ("cauldron_levels", .dict [("a", .str "7"), ("b", .dict [])])])
    [("a", .str "7"), ("b", .dict [])]
    (by intro r hr
        rcases List.mem_cons.1 hr with h | h
        · rw [h]; rfl
        · rw [List.mem_singleton.1 h]; rfl)
    rfl rfl (by decide)).trans (by rfl)

/- ----------------------------------------------------------------------
Claim C9.
---------------------------------------------------------------------- -/

/-- Claim C9 counterexample: on an upstream fetch failure the
discrepancy-check operation does not surface a service error: it answers
with HTTP 200 and a body shaped exactly like a normal alert-list reply
(compare the "All tickets reconciled." success body), not a 500. -/
theorem C9_counterexample :
    (check_discrepancies (.error "connection refused")).code = 200 ∧
    (check_discrepancies (.error "connection refused")).body =
      .list [.dict [("message", .str "Error connecting to EOG API to check tickets.")]] ∧
    (check_discrepancies (.error "connection refused")).code ≠ 500 :=
  ⟨rfl, rfl, by decide⟩

/-- Claim C9 amended: the live-levels operation does surface an upstream
fetch failure as a 500 service error, but the discrepancy-check operation
catches the failure and returns a 200 alert-list-shaped reply carrying a
fixed error message, i.e. its failure is not surfaced as a service error. -/
theorem C9_amended :
    (∀ (cat : List Cauldron) (e : String),
      get_cauldron_levels cat (.error e) = .fetchError e) ∧
    (∀ e : String, check_discrepancies (.error e) = ⟨200, discrepancyErrorBody⟩) :=
  ⟨fun _ _ => rfl, fun _ => rfl⟩

/- ----------------------------------------------------------------------
Claim C10.
---------------------------------------------------------------------- -/

/-- Replacing values in a map keeps its keys, hence does not change whether
a key lookup fails. -/
theorem find?_map_replace_none (acc : List (PyVal × ForecastEntry)) (k key : PyVal)
    (f : ForecastEntry) :
    ((acc.map (fun e => if pyKeyEq e.1 k then (e.1, f) else e)).find?
        (fun e => pyKeyEq e.1 key) = Option.none) ↔
      (acc.find? (fun e => pyKeyEq e.1 key) = Option.none) := by
  have hkey : ∀ e : PyVal × ForecastEntry,
      (if pyKeyEq e.1 k then (e.1, f) else e).1 = e.1 := by
    intro e; by_cases h : pyKeyEq e.1 k <;> simp [h]
  simp only [List.find?_eq_none, List.mem_map]
  constructor
  · intro h e he
    have := h _ ⟨e, he, rfl⟩
    rwa [hkey e] at this
  · rintro h x ⟨e, he, rfl⟩
    rw [hkey e]
    exact h e he

/-- One dict-comprehension insertion fails a key lookup iff the lookup
already failed and the inserted id does not match the key. -/
theorem forecastMapStep_find?_none (acc : List (PyVal × ForecastEntry))
    (f : ForecastEntry) (key : PyVal) :
    ((forecastMapStep acc f).find? (fun e => pyKeyEq e.1 key) = Option.none) ↔
      (acc.find? (fun e => pyKeyEq e.1 key) = Option.none ∧
        pyKeyEq (.str f.cauldron_id) key = false) := by
  rcases hfound : acc.find? (fun e => pyKeyEq e.1 (.str f.cauldron_id)) with _ | e₀
  · rw [forecastMapStep, hfound]
    rw [List.find?_append]
    simp only [Option.or_eq_none]
    constructor
    · rintro ⟨h1, h2⟩
      refine ⟨h1, ?_⟩
      simp only [List.find?_eq_none, List.mem_singleton] at h2
      have := h2 (.str f.cauldron_id, f) rfl
      simpa using this
    · rintro ⟨h1, h2⟩
      refine ⟨h1, ?_⟩
      simp only [List.find?_eq_none, List.mem_singleton]
      rintro x rfl
      simp [h2]
  · rw [forecastMapStep, hfound]
    rw [find?_map_replace_none]
    constructor
    · intro h
      refine ⟨h, ?_⟩
      have he₀ := List.find?_some hfound
      have hmem := List.mem_of_find?_eq_some hfound
      have hkey0 : e₀.1 = PyVal.str f.cauldron_id := pyKeyEq_str he₀
      rw [List.find?_eq_none] at h
      have := h e₀ hmem
      rw [hkey0] at this
      simpa using this
    · exact fun h => h.1

/-- Looking up a key in the forecast map fails iff no forecast entry's
cauldron id equals the key. -/
theorem forecastMapOf_find?_none (fs : List ForecastEntry) (key : PyVal) :
    ((forecastMapOf fs).find? (fun e => pyKeyEq e.1 key) = Option.none) ↔
      (∀ f ∈ fs, pyKeyEq (.str f.cauldron_id) key = false) := by
  have hgen : ∀ (fs : List ForecastEntry) (acc : List (PyVal × ForecastEntry)),
      ((fs.foldl forecastMapStep acc).find? (fun e => pyKeyEq e.1 key) = Option.none) ↔
        (acc.find? (fun e => pyKeyEq e.1 key) = Option.none ∧
          ∀ f ∈ fs, pyKeyEq (.str f.cauldron_id) key = false) := by
    intro fs
    induction fs with
    | nil => intro acc; simp
    | cons f t ih =>
      intro acc
      rw [List.foldl_cons, ih (forecastMapStep acc f), forecastMapStep_find?_none]
      constructor
      · rintro ⟨⟨h1, h2⟩, h3⟩
        exact ⟨h1, by
          intro g hg
          rcases List.mem_cons.1 hg with h | h
          · rw [h]; exact h2
          · exact h3 g h⟩
      · rintro ⟨h1, h2⟩
        exact ⟨⟨h1, h2 f (List.mem_cons_self ..)⟩,
          fun g hg => h2 g (List.mem_cons_of_mem _ hg)⟩
  rw [forecastMapOf, hgen fs []]
  simp

/-- Claim C10: the status operation's per-record computation never raises:
a missing or zero `max_volume` is replaced by 1 before dividing (so the
percent is computed against denominator 1), a missing `current_level` is
replaced by 0 (so the percent is 0), every residual arithmetic failure
(uncoercible max, zero after coercion, non-numeric current) yields
percent_full = 0.0, and `time_to_full_min` is null exactly when no forecast
entry's cauldron id equals the record's id. -/
theorem C10_status (c : List (String × PyVal)) (fs : List ForecastEntry) :
    (dictGet c "max_volume" = Option.none ∨ dictGet c "max_volume" = some (.num 0) →
      percent_full c =
        (match pyToNum (statusCurrent c) with
         | some cu => round1 (cu * 100)
         | Option.none => 0)) ∧
    (dictGet c "current_level" = Option.none → percent_full c = 0) ∧
    (pyFloat (statusMaxVol c) = Option.none ∨ pyFloat (statusMaxVol c) = some 0 ∨
        pyToNum (statusCurrent c) = Option.none →
      percent_full c = 0) ∧
    (status_time_to_full c fs = Option.none ↔
      ∀ f ∈ fs, pyKeyEq (.str f.cauldron_id) ((dictGet c "id").getD .none) = false) := by
  refine ⟨?_, ?_, ?_, ?_⟩
  · intro h
    have hmv : statusMaxVol c = .num 1 := by
      rcases h with h | h <;> simp [statusMaxVol, h, pyTruthy]
    rw [percent_full, hmv]
    simp only [pyFloat]
    rw [if_neg one_ne_zero]
    rcases hcu : pyToNum (statusCurrent c) with _ | cu
    · rfl
    · simp [div_one]
  · intro h
    have hcur : statusCurrent c = .num 0 := by simp [statusCurrent, h, pyTruthy]
    rcases hf : pyFloat (statusMaxVol c) with _ | m
    · simp [percent_full, hf]
    · by_cases hm : m = 0
      · simp [percent_full, hf, hm]
      · simp only [percent_full, hf, hcur, pyToNum, if_neg hm]
        norm_num [round1, roundHalfEven]
  · intro h
    rcases h with h | h | h
    · simp [percent_full, h]
    · simp [percent_full, h]
    · rcases hf : pyFloat (statusMaxVol c) with _ | m
      · simp [percent_full, hf]
      · by_cases hm : m = 0
        · simp [percent_full, hf, hm]
        · simp [percent_full, hf, hm, h]
  · have h1 : status_time_to_full c fs = Option.none ↔
        (forecastMapOf fs).find?
          (fun e => pyKeyEq e.1 ((dictGet c "id").getD .none)) = Option.none := by
      simp only [status_time_to_full]
      rcases hfind : (forecastMapOf fs).find?
          (fun e => pyKeyEq e.1 ((dictGet c "id").getD .none)) with _ | e <;> simp [hfind]
    exact h1.trans (forecastMapOf_find?_none fs _)

/-- Claim C10 witness: a record with a missing `max_volume` (denominator
replaced by 1, level 2 giving 200 percent) and an id absent from the
forecast list (null time-to-full), evaluated. -/
theorem C10_status_witness :
    percent_full [("id", .str "c1"), ("current_level", .num 2)] = 200 ∧
    status_time_to_full [("id", .str "c1"), ("current_level", .num 2)]
      [⟨"c9", "X", 5⟩] = Option.none := by
  constructor
  · refine ((C10_status [("id", .str "c1"), ("current_level", .num 2)] []).1
      (Or.inl rfl)).trans ?_
    have hcur : statusCurrent [("id", .str "c1"), ("current_level", .num 2)] = .num 2 := rfl
    rw [hcur]
    norm_num [pyToNum, round1, roundHalfEven]
  · exact ((C10_status [("id", .str "c1"), ("current_level", .num 2)]
      [⟨"c9", "X", 5⟩]).2.2.2).mpr (by decide)
